import Mathlib

/-!
Verification of the DCF77 edge-timing classifier and bit-frame decoder
(`DCF77Utils` and `dcf77_helpers::get_binary_value`).

The decoder itself (`src/lib.rs`, `src/dcf77_helpers.rs`) is embedded
directly.  The external collaborator crate `radio_datetime_utils`
(timestamp arithmetic, parity/BCD helpers and the date/time aggregate)
is not part of this repository's sources; its operations are modelled
from the specification at their documented interface and are marked
`Modelled from the spec:` below.
-/

namespace DCF77

/-- Default upper limit for spike detection in microseconds. -/
def SPIKE_LIMIT : Nat := 30000

/-- Maximum time in microseconds for a bit to be considered 0. -/
def ACTIVE_LIMIT : Nat := 150000

/-- Maximum time in microseconds for a bit to be considered 1. -/
def ACTIVE_RUNAWAY : Nat := 250000

/-- Minimum time in microseconds for a new minute to be detected. -/
def MINUTE_LIMIT : Nat := 1500000

/-- Signal is considered lost after this many microseconds. -/
def PASSIVE_RUNAWAY : Nat := 2500000

/-- Modulus of the 32-bit microsecond timestamp counter. -/
def U32_MOD : Nat := 4294967296

/-- Largest value of the 32-bit microsecond timestamp counter. -/
def U32_MAX : Nat := 4294967295

/-- Modelled from the spec: flag bit of the aggregate's leap-second state
meaning a leap second has been announced (`radio_datetime_utils::LEAP_ANNOUNCED`). -/
def LEAP_ANNOUNCED : Nat := 1

/-- Modelled from the spec: flag bit of the aggregate's leap-second state
meaning a leap second has been processed (`radio_datetime_utils::LEAP_PROCESSED`). -/
def LEAP_PROCESSED : Nat := 2

/-- Modelled from the spec: size of the bit frame buffer
(`radio_datetime_utils::BIT_BUFFER_SIZE`), one slot per second of a
61-second leap minute. -/
def BIT_BUFFER_SIZE : Nat := 61

/-- Modelled from the spec (paragraph 4.1): wrap-safe timestamp subtraction
`radio_datetime_helpers::time_diff`.  If the counter wrapped
(`later < earlier`) the result is `(MAX - earlier) + later + 1`. -/
def time_diff (earlier later : Nat) : Nat :=
  if later < earlier then U32_MAX - earlier + later + 1 else later - earlier

/-- The two drive disciplines of the decoder (`DecodeType` in `src/lib.rs`). -/
inductive DecodeType
  | Live
  | LogFile
deriving DecidableEq, Repr

/-- Modelled from the spec (paragraph 3 and 6): the external date/time
aggregate `RadioDateTimeUtils`.  It owns minute, hour, weekday, day,
month, year, DST state, leap-second state and jump flags, and exposes
narrow setters and getters.  Only the interface behaviour observable
through this repository's code and tests is modelled. -/
structure RadioDateTimeUtils where
  minute : Option Nat
  hour : Option Nat
  day : Option Nat
  weekday : Option Nat
  month : Option Nat
  year : Option Nat
  dst : Option Bool
  leap_second : Option Nat
  jump_minute : Bool
  jump_hour : Bool
  jump_day : Bool
  jump_weekday : Bool
  jump_month : Bool
  jump_year : Bool
  minutes_running : Nat
deriving DecidableEq, Repr

/-- Modelled from the spec: a fresh aggregate with every field undetermined. -/
def RadioDateTimeUtils.new : RadioDateTimeUtils :=
  { minute := none, hour := none, day := none, weekday := none, month := none,
    year := none, dst := none, leap_second := none,
    jump_minute := false, jump_hour := false, jump_day := false,
    jump_weekday := false, jump_month := false, jump_year := false,
    minutes_running := 0 }

/-- Modelled from the spec: clear all jump/anomaly flags of the aggregate. -/
def RadioDateTimeUtils.clear_jumps (r : RadioDateTimeUtils) : RadioDateTimeUtils :=
  { r with jump_minute := false, jump_hour := false, jump_day := false,
           jump_weekday := false, jump_month := false, jump_year := false }

/-- Modelled from the spec: days in a month of the aggregate's two-digit-year
calendar, used by `add_minute`. -/
def month_length (mo y : Nat) : Nat :=
  if mo = 1 ∨ mo = 3 ∨ mo = 5 ∨ mo = 7 ∨ mo = 8 ∨ mo = 10 ∨ mo = 12 then 31
  else if mo = 2 then (if y % 4 = 0 then 29 else 28)
  else 30

/-- Modelled from the spec (paragraph 1 and 6): the aggregate "knows how to
add a minute".  When every date/time field is determined the date/time is
advanced by one minute with the usual carries and the call reports success;
otherwise nothing changes and the call reports failure. -/
def RadioDateTimeUtils.add_minute (r : RadioDateTimeUtils) : RadioDateTimeUtils × Bool :=
  match r.minute, r.hour, r.day, r.weekday, r.month, r.year with
  | some mi, some h, some d, some wd, some mo, some y =>
    if mi + 1 < 60 then ({ r with minute := some (mi + 1) }, true)
    else if h + 1 < 24 then ({ r with minute := some 0, hour := some (h + 1) }, true)
    else if d + 1 ≤ month_length mo y then
      ({ r with minute := some 0, hour := some 0, day := some (d + 1),
                weekday := some (wd % 7 + 1) }, true)
    else if mo + 1 ≤ 12 then
      ({ r with minute := some 0, hour := some 0, day := some 1,
                month := some (mo + 1), weekday := some (wd % 7 + 1) }, true)
    else
      ({ r with minute := some 0, hour := some 0, day := some 1, month := some 1,
                year := some ((y + 1) % 100), weekday := some (wd % 7 + 1) }, true)
  | _, _, _, _, _, _ => (r, false)

/-- Modelled from the spec (paragraph 4.5 step 8 and 1): the aggregate
"reports the overall date/time as valid" when every date/time field is
determined and within range ("validate ranges") and the DST state is
determined. -/
def RadioDateTimeUtils.is_valid (r : RadioDateTimeUtils) : Bool :=
  match r.minute, r.hour, r.day, r.weekday, r.month, r.year with
  | some mi, some h, some d, some wd, some mo, some y =>
    decide (mi < 60) && decide (h < 24) && decide (1 ≤ d ∧ d ≤ 31) &&
      decide (1 ≤ wd ∧ wd ≤ 7) && decide (1 ≤ mo ∧ mo ≤ 12) && decide (y ≤ 99) &&
      r.dst.isSome
  | _, _, _, _, _, _ => false

/-- Modelled from the spec (paragraph 6): a field setter takes a decoded
value, a validity flag and a check-for-jump flag.  A valid value replaces
the stored one, an invalid value leaves it unchanged (pinned by the
repository's own `continue_decode_time_complete_minute_bad_bits` test);
the jump flag is raised when a valid, differing value arrives while jump
checking is requested. -/
def RadioDateTimeUtils.set_minute (r : RadioDateTimeUtils) (value : Option Nat)
    (valid : Bool) (check_jump : Bool) : RadioDateTimeUtils :=
  { r with minute := if valid then value else r.minute,
           jump_minute := check_jump && valid && decide (value ≠ r.minute) }

/-- Modelled from the spec (paragraph 6): hour setter, see `set_minute`. -/
def RadioDateTimeUtils.set_hour (r : RadioDateTimeUtils) (value : Option Nat)
    (valid : Bool) (check_jump : Bool) : RadioDateTimeUtils :=
  { r with hour := if valid then value else r.hour,
           jump_hour := check_jump && valid && decide (value ≠ r.hour) }

/-- Modelled from the spec (paragraph 6): weekday setter, see `set_minute`. -/
def RadioDateTimeUtils.set_weekday (r : RadioDateTimeUtils) (value : Option Nat)
    (valid : Bool) (check_jump : Bool) : RadioDateTimeUtils :=
  { r with weekday := if valid then value else r.weekday,
           jump_weekday := check_jump && valid && decide (value ≠ r.weekday) }

/-- Modelled from the spec (paragraph 6): month setter, see `set_minute`. -/
def RadioDateTimeUtils.set_month (r : RadioDateTimeUtils) (value : Option Nat)
    (valid : Bool) (check_jump : Bool) : RadioDateTimeUtils :=
  { r with month := if valid then value else r.month,
           jump_month := check_jump && valid && decide (value ≠ r.month) }

/-- Modelled from the spec (paragraph 6): year setter, see `set_minute`. -/
def RadioDateTimeUtils.set_year (r : RadioDateTimeUtils) (value : Option Nat)
    (valid : Bool) (check_jump : Bool) : RadioDateTimeUtils :=
  { r with year := if valid then value else r.year,
           jump_year := check_jump && valid && decide (value ≠ r.year) }

/-- Modelled from the spec (paragraph 6): day setter, see `set_minute`. -/
def RadioDateTimeUtils.set_day (r : RadioDateTimeUtils) (value : Option Nat)
    (valid : Bool) (check_jump : Bool) : RadioDateTimeUtils :=
  { r with day := if valid then value else r.day,
           jump_day := check_jump && valid && decide (value ≠ r.day) }

/-- Modelled from the spec (paragraph 4.5 step 5 and 6): the DST setter takes
the decoded DST value, the announcement bit and the jump flag; a determined
value replaces the stored state, an undetermined one is tolerated.  The
announced/processed transition bookkeeping of the collaborator is out of
scope and not modelled. -/
def RadioDateTimeUtils.set_dst (r : RadioDateTimeUtils) (value : Option Bool)
    (_announce : Option Bool) (_check_jump : Bool) : RadioDateTimeUtils :=
  { r with dst := if value.isSome then value else r.dst }

/-- Modelled from the spec (paragraph 4.5 step 6): the leap-second setter
receives the announcement bit together with the minute length just used;
the aggregate turns "announced" into "processed" once the long (61 second)
minute actually occurs, and tolerates an undetermined bit by keeping its
state. -/
def RadioDateTimeUtils.set_leap_second (r : RadioDateTimeUtils) (value : Option Bool)
    (minute_length : Nat) : RadioDateTimeUtils :=
  { r with leap_second :=
      match value with
      | none => r.leap_second
      | some v =>
        if (r.leap_second.getD 0) &&& LEAP_ANNOUNCED ≠ 0 ∧ minute_length = 61 then
          some LEAP_PROCESSED
        else if v then some LEAP_ANNOUNCED
        else some 0 }

/-- Modelled from the spec (paragraph 4.5 step 9): unconditional bump of the
"minutes successfully running" counter. -/
def RadioDateTimeUtils.bump_minutes_running (r : RadioDateTimeUtils) : RadioDateTimeUtils :=
  { r with minutes_running := r.minutes_running + 1 }

/-- Modelled from the spec (paragraph 4.3): the static second counter helper
`RadioDateTimeUtils::increase_second(second, new_minute, minute_length)`.
On a new-minute signal the counter resets to 0 (normal wrap, reported
`true`); otherwise it increments, and an incremented value that would
overflow the minute length is force-wrapped to 0 and reported `false`. -/
def RadioDateTimeUtils.increase_second (second : Nat) (new_minute : Bool)
    (minute_length : Nat) : Nat × Bool :=
  if new_minute then (0, true)
  else if second + 1 ≥ minute_length then (0, false)
  else (second + 1, true)

/-- Recursive core of `dcf77_helpers::get_binary_value`
(`src/dcf77_helpers.rs` lines 8-15): the loop
`for b in &bit_buffer[start..=stop] { (*b)?; val += mult * b; mult *= 2 }`
reading `n` slots from index `i`, with `val`/`mult` carried in 16-bit
(`u16`) arithmetic.  In-bounds slice access is enforced by the caller
`get_binary_value`; within bounds `List.getD` never falls back to its
default. -/
def bin_core (buf : List (Option Bool)) : Nat → Nat → Nat → Nat → Option Nat
  | _, 0, val, _ => some val
  | i, n + 1, val, mult =>
    match buf.getD i none with
    | none => none
    | some b => bin_core buf (i + 1) n ((val + mult * (if b then 1 else 0)) % 65536)
        ((mult * 2) % 65536)

/-- `dcf77_helpers::get_binary_value(bit_buffer, start, stop)`
(`src/dcf77_helpers.rs` lines 7-16).  The outer `Option` models the panic
of the slice access `bit_buffer[start..=stop]`: `none` when the slice
bounds are violated, `some` of the loop's result otherwise. -/
def get_binary_value (buf : List (Option Bool)) (start stop : Nat) :
    Option (Option Nat) :=
  if start ≤ stop + 1 ∧ stop + 1 ≤ buf.length then
    some (bin_core buf start (stop + 1 - start) 0 1)
  else none

/-- All of the `n` slots starting at index `i` are determined. -/
def all_some (buf : List (Option Bool)) : Nat → Nat → Bool
  | _, 0 => true
  | i, n + 1 => (buf.getD i none).isSome && all_some buf (i + 1) n

/-- Number of `One` bits among the `n` slots starting at index `i`. -/
def count_ones (buf : List (Option Bool)) : Nat → Nat → Nat
  | _, 0 => 0
  | i, n + 1 => (if buf.getD i none = some true then 1 else 0) + count_ones buf (i + 1) n

/-- Binary value, least significant bit first, of the `n` slots starting at
index `i`. -/
def bits_value (buf : List (Option Bool)) : Nat → Nat → Nat
  | _, 0 => 0
  | i, n + 1 => (if buf.getD i none = some true then 1 else 0) + 2 * bits_value buf (i + 1) n

/-- Modelled from the spec (paragraph 4.5 step 3):
`radio_datetime_helpers::get_parity(buffer, start, stop, parity_bit)`.
Even parity: the field is ok (`some false`) iff the number of One bits in
the range plus the parity bit is even; `none` if any bit in the range or
the parity bit is undetermined. -/
def get_parity (buf : List (Option Bool)) (start stop : Nat) (pbit : Option Bool) :
    Option Bool :=
  match pbit with
  | none => none
  | some p =>
    if all_some buf start (stop + 1 - start) then
      some (decide ((count_ones buf start (stop + 1 - start) + (if p then 1 else 0)) % 2 = 1))
    else none

/-- Modelled from the spec (paragraph 4.5 step 4):
`radio_datetime_helpers::get_bcd_value(buffer, start, stop)`.  The first
four bits (least significant first) are the units digit, the remaining
bits the tens digit; decoding fails when a bit is undetermined or a digit
is not a valid BCD digit. -/
def get_bcd_value (buf : List (Option Bool)) (start stop : Nat) : Option Nat :=
  let n := stop + 1 - start
  if all_some buf start n then
    let units := bits_value buf start (min 4 n)
    let tens := bits_value buf (start + 4) (n - 4)
    if units ≤ 9 ∧ tens ≤ 9 then some (units + 10 * tens) else none
  else none

/-- The decoder state `DCF77Utils` (`src/lib.rs` lines 27-48).  Machine
integers are modelled as `Nat`; the bit buffer is a list of
`BIT_BUFFER_SIZE` tri-state bits. -/
structure DCF77Utils where
  decode_type : DecodeType
  first_minute : Bool
  new_minute : Bool
  new_second : Bool
  second : Nat
  old_second : Nat
  bit_buffer : List (Option Bool)
  radio_datetime : RadioDateTimeUtils
  leap_second_is_one : Option Bool
  parity_1 : Option Bool
  parity_2 : Option Bool
  parity_3 : Option Bool
  bit_0 : Option Bool
  third_party : Option Nat
  call_bit : Option Bool
  bit_20 : Option Bool
  before_first_edge : Bool
  t0 : Nat
  spike_limit : Nat
deriving DecidableEq, Repr

/-- `DCF77Utils::new` (`src/lib.rs` lines 72-94). -/
def DCF77Utils.new (dt : DecodeType) : DCF77Utils :=
  { decode_type := dt, first_minute := true, new_minute := false, new_second := false,
    second := 0, old_second := 0, bit_buffer := List.replicate BIT_BUFFER_SIZE none,
    radio_datetime := RadioDateTimeUtils.new, leap_second_is_one := none,
    parity_1 := none, parity_2 := none, parity_3 := none, bit_0 := none,
    third_party := none, call_bit := none, bit_20 := none,
    before_first_edge := true, t0 := 0, spike_limit := SPIKE_LIMIT }

/-- `DCF77Utils::handle_new_edge` (`src/lib.rs` lines 219-248).  The
timestamp reference `t0` is a `u32`; the spike-path update `t0 += t_diff`
wraps modulo `2^32`. -/
def DCF77Utils.handle_new_edge (s : DCF77Utils) (is_low_edge : Bool) (t : Nat) :
    DCF77Utils :=
  if s.before_first_edge then
    { s with before_first_edge := false, t0 := t }
  else
    let t_diff := time_diff s.t0 t
    if t_diff < s.spike_limit then
      { s with t0 := (s.t0 + t_diff) % U32_MOD }
    else if is_low_edge then
      { s with t0 := t, new_second := false,
               bit_buffer := s.bit_buffer.set s.second
                 (if t_diff < ACTIVE_LIMIT then some false
                  else if t_diff < ACTIVE_RUNAWAY then some true
                  else none) }
    else if t_diff < PASSIVE_RUNAWAY then
      { s with t0 := t, new_minute := decide (t_diff > MINUTE_LIMIT),
               new_second := decide (t_diff > 1000000 - ACTIVE_RUNAWAY) }
    else
      { s with t0 := t, bit_buffer := s.bit_buffer.set s.second none }

/-- The minute-length formula of the `get_minute_length!` macro
(`src/lib.rs` lines 56-68) for the minute just finishing: 61 iff the
leap-second state is determined and carries the processed flag. -/
def this_minute_length_of (r : RadioDateTimeUtils) : Nat :=
  match r.leap_second with
  | some ls => if ls &&& LEAP_PROCESSED ≠ 0 then 61 else 60
  | none => 60

/-- The minute-length formula of the `get_minute_length!` macro
(`src/lib.rs` lines 56-68) for the minute about to start: 61 iff the
aggregate's minute is 59 and the leap-second state carries the announced
flag. -/
def next_minute_length_of (r : RadioDateTimeUtils) : Nat :=
  match r.leap_second with
  | some ls => if r.minute = some 59 ∧ ls &&& LEAP_ANNOUNCED ≠ 0 then 61 else 60
  | none => 60

/-- `DCF77Utils::get_this_minute_length` (`src/lib.rs` lines 251-253). -/
def DCF77Utils.get_this_minute_length (s : DCF77Utils) : Nat :=
  this_minute_length_of s.radio_datetime

/-- `DCF77Utils::get_next_minute_length` (`src/lib.rs` lines 256-262). -/
def DCF77Utils.get_next_minute_length (s : DCF77Utils) : Nat :=
  next_minute_length_of s.radio_datetime

/-- `DCF77Utils::increase_second` (`src/lib.rs` lines 271-275). -/
def DCF77Utils.increase_second (s : DCF77Utils) : DCF77Utils × Bool :=
  let minute_length := s.get_next_minute_length
  let r := RadioDateTimeUtils.increase_second s.second s.new_minute minute_length
  ({ s with old_second := s.second, second := r.1 }, r.2)

/-- Results of `k` successive `increase_second` calls, in order. -/
def DCF77Utils.iter_results : DCF77Utils → Nat → List Bool
  | _, 0 => []
  | s, k + 1 =>
    let r := s.increase_second
    r.2 :: r.1.iter_results k

/-- The DST decoding of `decode_time` (`src/lib.rs` lines 317-324):
determined only when bits 17 and 18 are both determined and differ, in
which case the value is bit 17. -/
def dst_value (buf : List (Option Bool)) : Option Bool :=
  if (buf.getD 17 none).isSome ∧ (buf.getD 18 none).isSome ∧
      buf.getD 17 none ≠ buf.getD 18 none then
    buf.getD 17 none
  else none

/-- The combined strict validity flag of `decode_time`
(`src/lib.rs` lines 326-331). -/
def strict_ok (buf : List (Option Bool)) : Bool :=
  decide (get_parity buf 21 27 (buf.getD 28 none) = some false
    ∧ get_parity buf 29 34 (buf.getD 35 none) = some false
    ∧ get_parity buf 36 57 (buf.getD 58 none) = some false
    ∧ buf.getD 0 none = some false
    ∧ buf.getD 20 none = some true
    ∧ (dst_value buf).isSome = true)

/-- One recorded invocation of an aggregate setter during `decode_time`,
with the exact arguments passed. -/
inductive SetterCall
  | minute (value : Option Nat) (valid : Bool) (check_jump : Bool)
  | hour (value : Option Nat) (valid : Bool) (check_jump : Bool)
  | weekday (value : Option Nat) (valid : Bool) (check_jump : Bool)
  | month (value : Option Nat) (valid : Bool) (check_jump : Bool)
  | year (value : Option Nat) (valid : Bool) (check_jump : Bool)
  | day (value : Option Nat) (valid : Bool) (check_jump : Bool)
  | dst (value : Option Bool) (announce : Option Bool) (check_jump : Bool)
  | leapSecond (value : Option Bool) (minute_length : Nat)
deriving DecidableEq, Repr

/-- `DCF77Utils::decode_time` (`src/lib.rs` lines 293-421), instrumented to
also return the list of aggregate setter invocations with their exact
arguments.  The call to `dcf77_helpers::get_binary_value` on bits 1-14 is
in bounds for the 61-slot buffer and appears here as its loop `bin_core`. -/
def DCF77Utils.decode_time_aux (s : DCF77Utils) (strict_checks : Bool) :
    DCF77Utils × List SetterCall :=
  let rdt0 := s.radio_datetime.clear_jumps
  let minute_length := next_minute_length_of rdt0
  let am := if s.first_minute then (rdt0, false) else rdt0.add_minute
  let rdt1 := am.1
  let added_minute := am.2
  if 1 + (match s.decode_type with
          | DecodeType.Live => s.old_second
          | DecodeType.LogFile => s.second) = minute_length then
    let buf := s.bit_buffer
    let b0 := buf.getD 0 none
    let tp := bin_core buf 1 14 0 1
    let cb := buf.getD 15 none
    let b20 := buf.getD 20 none
    let p1 := get_parity buf 21 27 (buf.getD 28 none)
    let p2 := get_parity buf 29 34 (buf.getD 35 none)
    let p3 := get_parity buf 36 57 (buf.getD 58 none)
    let dst := dst_value buf
    let sOk := strict_ok buf
    let cj := added_minute && !s.first_minute
    let vMinute := if strict_checks then sOk else decide (p1 = some false)
    let vHour := if strict_checks then sOk else decide (p2 = some false)
    let vDate := if strict_checks then sOk else decide (p3 = some false)
    let rdt2 := rdt1.set_minute (get_bcd_value buf 21 27) vMinute cj
    let rdt3 := rdt2.set_hour (get_bcd_value buf 29 34) vHour cj
    let rdt4 := rdt3.set_weekday (get_bcd_value buf 42 44) vDate cj
    let rdt5 := rdt4.set_month (get_bcd_value buf 45 49) vDate cj
    let rdt6 := rdt5.set_year (get_bcd_value buf 50 57) vDate cj
    let rdt7 := rdt6.set_day (get_bcd_value buf 36 41) vDate cj
    let rdt8 := rdt7.set_dst dst (buf.getD 16 none) cj
    let rdt9 := rdt8.set_leap_second (buf.getD 19 none) minute_length
    let lsio := match rdt9.leap_second with
      | some ls =>
        if ls &&& LEAP_PROCESSED ≠ 0 then some (decide (buf.getD 59 none = some true))
        else none
      | none => none
    let fm := if (if strict_checks then sOk = true
                  else buf.getD 0 none = some false ∧ buf.getD 20 none = some true) ∧
                 rdt9.is_valid = true then false
              else s.first_minute
    ({ s with radio_datetime := rdt9.bump_minutes_running,
              bit_0 := b0, third_party := tp, call_bit := cb, bit_20 := b20,
              parity_1 := p1, parity_2 := p2, parity_3 := p3,
              leap_second_is_one := lsio, first_minute := fm },
     [SetterCall.minute (get_bcd_value buf 21 27) vMinute cj,
      SetterCall.hour (get_bcd_value buf 29 34) vHour cj,
      SetterCall.weekday (get_bcd_value buf 42 44) vDate cj,
      SetterCall.month (get_bcd_value buf 45 49) vDate cj,
      SetterCall.year (get_bcd_value buf 50 57) vDate cj,
      SetterCall.day (get_bcd_value buf 36 41) vDate cj,
      SetterCall.dst dst (buf.getD 16 none) cj,
      SetterCall.leapSecond (buf.getD 19 none) minute_length])
  else
    ({ s with radio_datetime := rdt1 }, [])

/-- `DCF77Utils::decode_time`, state part only. -/
def DCF77Utils.decode_time (s : DCF77Utils) (strict_checks : Bool) : DCF77Utils :=
  (s.decode_time_aux strict_checks).1

/-- The 59 broadcast bits of the repository's own test frame `BIT_BUFFER`
(minute 58, hour 16, Saturday 22 October 2022, summer time), with the
end-of-minute slots 59 and 60 undetermined. -/
def good_frame : List (Option Bool) :=
  [some false,
   some false, some true, some false, some false, some true, some true, some true,
   some true, some false, some false, some false, some true, some true, some false,
   some true,
   some false, some true, some false,
   some false,
   some true,
   some false, some false, some false, some true, some true, some false, some true,
   some true,
   some false, some true, some true, some false, some true, some false, some true,
   some false, some true, some false, some false, some false, some true,
   some false, some true, some true,
   some false, some false, some false, some false, some true,
   some false, some true, some false, some false, some false, some true, some false,
   some false,
   some true,
   none, none]

/-- A decoder state past its first edge with reference timestamp 0. -/
def ex_edge : DCF77Utils :=
  { DCF77Utils.new DecodeType.Live with before_first_edge := false, t0 := 0 }

/-- A decoder state past its first edge whose reference timestamp sits just
below the 32-bit counter wrap. -/
def ex_edge_wrap : DCF77Utils :=
  { DCF77Utils.new DecodeType.Live with before_first_edge := false, t0 := 4294967290 }

/-- A fully determined, in-range aggregate state (22 October 2022, 16:30). -/
def rdt_valid : RadioDateTimeUtils :=
  { RadioDateTimeUtils.new with
    minute := some 30, hour := some 16, day := some 22, weekday := some 6,
    month := some 10, year := some 22, dst := some true, leap_second := some 0 }

/-- `rdt_valid` at minute 57. -/
def rdt_valid57 : RadioDateTimeUtils :=
  { rdt_valid with minute := some 57 }

/-- A decoder state past its first decoded minute whose frame-complete test
fails (second 42 of a 60-second minute, offline mode). -/
def cx2 : DCF77Utils :=
  { DCF77Utils.new DecodeType.LogFile with
    first_minute := false, second := 42, radio_datetime := rdt_valid }

/-- A first-minute decoder state with a complete frame whose DST bits 17 and
18 are equal (DST undetermined), over a pre-filled valid aggregate. -/
def cx3 : DCF77Utils :=
  { DCF77Utils.new DecodeType.LogFile with
    second := 59, bit_buffer := good_frame.set 17 (some false),
    radio_datetime := rdt_valid57 }

/-- A first-minute decoder state holding the complete good test frame. -/
def wframe : DCF77Utils :=
  { DCF77Utils.new DecodeType.LogFile with second := 59, bit_buffer := good_frame }

/-- A decoder state whose aggregate reports a processed leap second. -/
def ex_leap : DCF77Utils :=
  { DCF77Utils.new DecodeType.Live with
    radio_datetime := { RadioDateTimeUtils.new with
                        minute := some 59, leap_second := some 2 } }

/-- Optional lookup at `i` of `l.set i a` is `some a` whenever `i` is in
bounds. -/
theorem set_self_lookup {α : Type} (l : List α) (i : Nat) (a : α)
    (h : i < l.length) : (l.set i a)[i]? = some a := by
  induction l generalizing i with
  | nil => simp at h
  | cons x xs ih =>
    cases i with
    | zero => simp
    | succ j => simpa using ih j (by simpa using h)

/-- Element `i` of `l.set i a` is `a` whenever `i` is in bounds. -/
theorem getD_set_self {α : Type} (l : List α) (i : Nat) (a d : α)
    (h : i < l.length) : (l.set i a).getD i d = a := by
  simp [List.getD_eq_getElem?_getD, set_self_lookup _ _ _ h]

/-- Claim C1 counterexample: on a rising edge with
`spike_limit <= delta < PASSIVE_RUNAWAY` the decoder does not always set
`new_second` to `true`: at `delta = 100000` microseconds it sets `new_second`
to `false` (the code sets `new_second = delta > 1000000 - ACTIVE_RUNAWAY`). -/
theorem c1_new_second_counterexample :
    ex_edge.before_first_edge = false ∧
    ex_edge.spike_limit ≤ time_diff ex_edge.t0 100000 ∧
    time_diff ex_edge.t0 100000 < PASSIVE_RUNAWAY ∧
    (ex_edge.handle_new_edge false 100000).new_second = false := by
  decide

/-- Claim C1 (amended): past the first edge, a rising edge with
`spike_limit <= delta < PASSIVE_RUNAWAY` sets `new_minute` to
`delta > MINUTE_LIMIT` and sets `new_second` to
`delta > 1000000 - ACTIVE_RUNAWAY` (not unconditionally to `true`); with
`delta >= PASSIVE_RUNAWAY` it marks the current buffer slot undetermined
and leaves `new_minute` and `new_second` unchanged. -/
theorem c1_rising_edge (s : DCF77Utils) (t : Nat)
    (h1 : s.before_first_edge = false)
    (h2 : s.spike_limit ≤ time_diff s.t0 t) :
    (time_diff s.t0 t < PASSIVE_RUNAWAY →
      (s.handle_new_edge false t).new_minute = decide (time_diff s.t0 t > MINUTE_LIMIT) ∧
      (s.handle_new_edge false t).new_second =
        decide (time_diff s.t0 t > 1000000 - ACTIVE_RUNAWAY)) ∧
    (PASSIVE_RUNAWAY ≤ time_diff s.t0 t →
      (s.handle_new_edge false t).bit_buffer = s.bit_buffer.set s.second none ∧
      (s.second < s.bit_buffer.length →
        (s.handle_new_edge false t).bit_buffer.getD s.second none = none) ∧
      (s.handle_new_edge false t).new_minute = s.new_minute ∧
      (s.handle_new_edge false t).new_second = s.new_second) := by
  have hns : ¬ (time_diff s.t0 t < s.spike_limit) := Nat.not_lt.mpr h2
  constructor
  · intro h3
    constructor <;> simp [DCF77Utils.handle_new_edge, h1, hns, h3]
  · intro h3
    have hnp : ¬ (time_diff s.t0 t < PASSIVE_RUNAWAY) := Nat.not_lt.mpr h3
    refine ⟨?_, ?_, ?_, ?_⟩
    · simp [DCF77Utils.handle_new_edge, h1, hns, hnp]
    · intro hlen
      simp [DCF77Utils.handle_new_edge, h1, hns, hnp, set_self_lookup _ _ _ hlen]
    · simp [DCF77Utils.handle_new_edge, h1, hns, hnp]
    · simp [DCF77Utils.handle_new_edge, h1, hns, hnp]

/-- Witness for `c1_rising_edge` at a concrete rising edge of 1600000
microseconds. -/
theorem c1_rising_edge_witness :
    (ex_edge.before_first_edge = false ∧
     ex_edge.spike_limit ≤ time_diff ex_edge.t0 1600000 ∧
     time_diff ex_edge.t0 1600000 < PASSIVE_RUNAWAY) ∧
    (ex_edge.handle_new_edge false 1600000).new_minute =
      decide (time_diff ex_edge.t0 1600000 > MINUTE_LIMIT) ∧
    (ex_edge.handle_new_edge false 1600000).new_second =
      decide (time_diff ex_edge.t0 1600000 > 1000000 - ACTIVE_RUNAWAY) := by
  refine ⟨by decide, ?_⟩
  exact (c1_rising_edge ex_edge 1600000 (by decide) (by decide)).1 (by decide)

/-- Claim C5: past the first edge, a falling edge with
`delta >= spike_limit` clears `new_second`, leaves `new_minute` unaltered,
and writes the current buffer slot as Zero for `delta < ACTIVE_LIMIT`
(150000), One for `ACTIVE_LIMIT <= delta < ACTIVE_RUNAWAY` (250000) and
Unknown for `delta >= ACTIVE_RUNAWAY`. -/
theorem c5_falling_edge (s : DCF77Utils) (t : Nat)
    (h1 : s.before_first_edge = false)
    (h2 : s.spike_limit ≤ time_diff s.t0 t)
    (hlen : s.second < s.bit_buffer.length) :
    (s.handle_new_edge true t).new_second = false ∧
    (s.handle_new_edge true t).new_minute = s.new_minute ∧
    (s.handle_new_edge true t).bit_buffer =
      s.bit_buffer.set s.second
        (if time_diff s.t0 t < ACTIVE_LIMIT then some false
         else if time_diff s.t0 t < ACTIVE_RUNAWAY then some true
         else none) ∧
    (time_diff s.t0 t < ACTIVE_LIMIT →
      (s.handle_new_edge true t).bit_buffer.getD s.second none = some false) ∧
    (ACTIVE_LIMIT ≤ time_diff s.t0 t → time_diff s.t0 t < ACTIVE_RUNAWAY →
      (s.handle_new_edge true t).bit_buffer.getD s.second none = some true) ∧
    (ACTIVE_RUNAWAY ≤ time_diff s.t0 t →
      (s.handle_new_edge true t).bit_buffer.getD s.second none = none) ∧
    ACTIVE_LIMIT = 150000 ∧ ACTIVE_RUNAWAY = 250000 := by
  have hns : ¬ (time_diff s.t0 t < s.spike_limit) := Nat.not_lt.mpr h2
  refine ⟨?_, ?_, ?_, ?_, ?_, ?_, rfl, rfl⟩
  · simp [DCF77Utils.handle_new_edge, h1, hns]
  · simp [DCF77Utils.handle_new_edge, h1, hns]
  · simp [DCF77Utils.handle_new_edge, h1, hns]
  · intro h3
    simp [DCF77Utils.handle_new_edge, h1, hns, h3, set_self_lookup _ _ _ hlen]
  · intro h3 h4
    have h5 : ¬ (time_diff s.t0 t < ACTIVE_LIMIT) := Nat.not_lt.mpr h3
    simp [DCF77Utils.handle_new_edge, h1, hns, h5, h4, set_self_lookup _ _ _ hlen]
  · intro h3
    have h4 : ¬ (time_diff s.t0 t < ACTIVE_LIMIT) :=
      Nat.not_lt.mpr (le_trans (by decide) h3)
    have h5 : ¬ (time_diff s.t0 t < ACTIVE_RUNAWAY) := Nat.not_lt.mpr h3
    simp [DCF77Utils.handle_new_edge, h1, hns, h4, h5, set_self_lookup _ _ _ hlen]

/-- Witness for `c5_falling_edge` at a concrete falling edge of 200000
microseconds (a One bit). -/
theorem c5_falling_edge_witness :
    (ex_edge.before_first_edge = false ∧
     ex_edge.spike_limit ≤ time_diff ex_edge.t0 200000 ∧
     ex_edge.second < ex_edge.bit_buffer.length) ∧
    (ex_edge.handle_new_edge true 200000).new_second = false ∧
    (ex_edge.handle_new_edge true 200000).bit_buffer.getD ex_edge.second none =
      some true := by
  refine ⟨by decide, ?_, ?_⟩
  · exact (c5_falling_edge ex_edge 200000 (by decide) (by decide) (by decide)).1
  · exact (c5_falling_edge ex_edge 200000 (by decide) (by decide)
      (by decide)).2.2.2.2.1 (by decide) (by decide)

/-- Claim C6: past the first edge, an edge of either polarity whose delta is
strictly below the spike limit changes nothing in the decoder state except
the reference `t0`, which advances by exactly delta (wrapping 32-bit
addition) rather than snapping to the new timestamp. -/
theorem c6_spike (s : DCF77Utils) (e : Bool) (t : Nat)
    (h1 : s.before_first_edge = false)
    (h2 : time_diff s.t0 t < s.spike_limit) :
    s.handle_new_edge e t = { s with t0 := (s.t0 + time_diff s.t0 t) % U32_MOD } := by
  simp [DCF77Utils.handle_new_edge, h1, h2]

/-- Witness for `c6_spike` at a concrete 10000-microsecond spike. -/
theorem c6_spike_witness :
    (ex_edge.before_first_edge = false ∧
     time_diff ex_edge.t0 10000 < ex_edge.spike_limit) ∧
    ex_edge.handle_new_edge true 10000 =
      { ex_edge with t0 := (ex_edge.t0 + time_diff ex_edge.t0 10000) % U32_MOD } := by
  exact ⟨by decide, c6_spike ex_edge true 10000 (by decide) (by decide)⟩

/-- Claim C9: on the spike path the reference update `t0 + delta` is
congruent to the new timestamp `t` modulo `2^32` (so the wrapped update
equals snapping to `t`), and the unwrapped sum `t0 + delta` exceeds
`u32::MAX` exactly when the timestamp counter wrapped between `t0` and `t`. -/
theorem c9_spike_wraparound (s : DCF77Utils) (e : Bool) (t : Nat)
    (h0 : s.t0 < U32_MOD) (ht : t < U32_MOD)
    (h1 : s.before_first_edge = false)
    (h2 : time_diff s.t0 t < s.spike_limit) :
    (s.handle_new_edge e t).t0 = t ∧
    (s.t0 + time_diff s.t0 t) % U32_MOD = t ∧
    (U32_MAX < s.t0 + time_diff s.t0 t ↔ t < s.t0) := by
  have hmod : (s.t0 + time_diff s.t0 t) % U32_MOD = t := by
    unfold time_diff U32_MOD U32_MAX at *
    split
    · omega
    · omega
  have hover : (U32_MAX < s.t0 + time_diff s.t0 t ↔ t < s.t0) := by
    unfold time_diff U32_MOD U32_MAX at *
    split
    · omega
    · omega
  refine ⟨?_, hmod, hover⟩
  have hstep : (s.handle_new_edge e t).t0 = (s.t0 + time_diff s.t0 t) % U32_MOD := by
    simp [DCF77Utils.handle_new_edge, h1, h2]
  rw [hstep, hmod]

/-- Witness for `c9_spike_wraparound` at a concrete wrapped pair of
timestamps (`t0` = 4294967290, `t` = 5, delta = 11). -/
theorem c9_spike_wraparound_witness :
    (ex_edge_wrap.t0 < U32_MOD ∧ (5 : Nat) < U32_MOD ∧
     ex_edge_wrap.before_first_edge = false ∧
     time_diff ex_edge_wrap.t0 5 < ex_edge_wrap.spike_limit) ∧
    (ex_edge_wrap.handle_new_edge false 5).t0 = 5 ∧
    (ex_edge_wrap.t0 + time_diff ex_edge_wrap.t0 5) % U32_MOD = 5 ∧
    (U32_MAX < ex_edge_wrap.t0 + time_diff ex_edge_wrap.t0 5 ↔ 5 < ex_edge_wrap.t0) := by
  exact ⟨by decide,
    c9_spike_wraparound ex_edge_wrap false 5 (by decide) (by decide) (by decide) (by decide)⟩

/-- The minute-length formula only ever yields 60 or 61. -/
theorem next_minute_length_of_cases (r : RadioDateTimeUtils) :
    next_minute_length_of r = 60 ∨ next_minute_length_of r = 61 := by
  unfold next_minute_length_of
  cases r.leap_second with
  | none => exact Or.inl rfl
  | some ls =>
    by_cases h : r.minute = some 59 ∧ ls &&& LEAP_ANNOUNCED ≠ 0
    · simp [h]
    · simp [h]

/-- Claim C7: `get_this_minute_length` is 61 exactly when the aggregate's
leap-second state is determined with the processed flag set, and
`get_next_minute_length` is 61 exactly when the aggregate's minute is 59
and the leap-second state is determined with the announced flag set; both
are 60 when the leap-second state is undetermined, and 60 otherwise. -/
theorem c7_minute_lengths (s : DCF77Utils) :
    (s.get_this_minute_length = 61 ↔
      ∃ ls, s.radio_datetime.leap_second = some ls ∧ ls &&& LEAP_PROCESSED ≠ 0) ∧
    (s.get_this_minute_length = 60 ∨ s.get_this_minute_length = 61) ∧
    (s.get_next_minute_length = 61 ↔
      s.radio_datetime.minute = some 59 ∧
        ∃ ls, s.radio_datetime.leap_second = some ls ∧ ls &&& LEAP_ANNOUNCED ≠ 0) ∧
    (s.get_next_minute_length = 60 ∨ s.get_next_minute_length = 61) ∧
    (s.radio_datetime.leap_second = none →
      s.get_this_minute_length = 60 ∧ s.get_next_minute_length = 60) := by
  unfold DCF77Utils.get_this_minute_length DCF77Utils.get_next_minute_length
    this_minute_length_of next_minute_length_of
  cases hls : s.radio_datetime.leap_second with
  | none => simp
  | some ls =>
    refine ⟨?_, ?_, ?_, ?_, ?_⟩
    · by_cases hp : ls &&& LEAP_PROCESSED ≠ 0
      · simp [hp]
      · simp [hp]
    · by_cases hp : ls &&& LEAP_PROCESSED ≠ 0
      · simp [hp]
      · simp [hp]
    · by_cases ha : s.radio_datetime.minute = some 59 ∧ ls &&& LEAP_ANNOUNCED ≠ 0
      · simp [ha]
      · simp only [ha, if_false]
        constructor
        · intro h; omega
        · intro h
          rcases h with ⟨hm, l2, hl2, hflag⟩
          injection hl2 with hl2e
          exact absurd ⟨hm, hl2e ▸ hflag⟩ ha
    · by_cases ha : s.radio_datetime.minute = some 59 ∧ ls &&& LEAP_ANNOUNCED ≠ 0
      · simp [ha]
      · simp [ha]
    · intro h
      simp at h

/-- Witness for `c7_minute_lengths`: a processed leap second makes the
current minute 61 seconds long. -/
theorem c7_minute_lengths_witness :
    ex_leap.get_this_minute_length = 61 ∧ ex_leap.get_next_minute_length = 60 := by
  constructor
  · exact (c7_minute_lengths ex_leap).1.mpr ⟨2, rfl, by decide⟩
  · cases (c7_minute_lengths ex_leap).2.2.2.1 with
    | inl h => exact h
    | inr h =>
      have h2 := (c7_minute_lengths ex_leap).2.2.1.mp h
      exact absurd h2.2 (by decide)

/-- One `increase_second` call with the minute-marker signal absent returns
`false` exactly once over a whole minute: counting from second `s.second`
with `n` calls remaining to complete the minute. -/
theorem iter_results_count (n : Nat) : ∀ s : DCF77Utils, s.new_minute = false →
    0 < n → s.second + n = s.get_next_minute_length →
    (s.iter_results n).count false = 1 := by
  induction n with
  | zero => intro s h1 h2 h3; omega
  | succ k ih =>
    intro s hnm hpos hsum
    cases k with
    | zero =>
      have hge : s.second + 1 ≥ s.get_next_minute_length := by omega
      simp [DCF77Utils.iter_results, DCF77Utils.increase_second,
        RadioDateTimeUtils.increase_second, hnm, hge]
    | succ j =>
      have hlt : ¬ (s.second + 1 ≥ s.get_next_minute_length) := by omega
      have hstep : s.iter_results (j + 1 + 1) =
          true :: ({ s with old_second := s.second,
                            second := s.second + 1 }).iter_results (j + 1) := by
        simp [DCF77Utils.iter_results, DCF77Utils.increase_second,
          RadioDateTimeUtils.increase_second, hnm, hlt]
      rw [hstep]
      have hrec := ih { s with old_second := s.second, second := s.second + 1 }
        (by simpa using hnm) (Nat.succ_pos j) (by simpa using (by omega : s.second + 1 + (j + 1) = s.get_next_minute_length))
      simpa using hrec

/-- Claim C8: `increase_second` (which consults `get_next_minute_length`)
never produces a second index exceeding the minute length: a `new_minute`
signal resets the index to 0 returning `true`; otherwise the index is
incremented, an incremented value that would overflow the minute length is
force-wrapped to 0 returning `false`, and starting from second 0 without a
`new_minute` signal a full minute of calls returns `false` exactly once. -/
theorem c8_increase_second (s : DCF77Utils) :
    (s.increase_second).1.second < s.get_next_minute_length ∧
    (s.new_minute = true →
      (s.increase_second).1.second = 0 ∧ (s.increase_second).2 = true) ∧
    (s.new_minute = false → s.second + 1 ≥ s.get_next_minute_length →
      (s.increase_second).1.second = 0 ∧ (s.increase_second).2 = false) ∧
    (s.new_minute = false → s.second + 1 < s.get_next_minute_length →
      (s.increase_second).1.second = s.second + 1 ∧ (s.increase_second).2 = true) ∧
    (s.new_minute = false → s.second = 0 →
      (s.iter_results s.get_next_minute_length).count false = 1) := by
  have hlen := next_minute_length_of_cases s.radio_datetime
  refine ⟨?_, ?_, ?_, ?_, ?_⟩
  · cases hnm : s.new_minute with
    | true =>
      simp only [DCF77Utils.increase_second, RadioDateTimeUtils.increase_second, hnm]
      simp
      unfold DCF77Utils.get_next_minute_length
      omega
    | false =>
      by_cases hge : s.second + 1 ≥ s.get_next_minute_length
      · simp only [DCF77Utils.increase_second, RadioDateTimeUtils.increase_second, hnm]
        simp [hge]
        unfold DCF77Utils.get_next_minute_length at *
        omega
      · simp only [DCF77Utils.increase_second, RadioDateTimeUtils.increase_second, hnm]
        simp [hge]
        omega
  · intro hnm
    simp [DCF77Utils.increase_second, RadioDateTimeUtils.increase_second, hnm]
  · intro hnm hge
    simp [DCF77Utils.increase_second, RadioDateTimeUtils.increase_second, hnm, hge]
  · intro hnm hltv
    have hx : ¬ (s.second + 1 ≥ s.get_next_minute_length) := by omega
    simp [DCF77Utils.increase_second, RadioDateTimeUtils.increase_second, hnm, hx]
  · intro hnm hz
    refine iter_results_count s.get_next_minute_length s hnm ?_ (by omega)
    unfold DCF77Utils.get_next_minute_length
    omega

/-- Witness for `c8_increase_second`: a fresh offline decoder at second 0 of
a 60-second minute wraps with `false` exactly once in 60 calls. -/
theorem c8_increase_second_witness :
    ((DCF77Utils.new DecodeType.LogFile).new_minute = false ∧
     (DCF77Utils.new DecodeType.LogFile).second = 0) ∧
    ((DCF77Utils.new DecodeType.LogFile).iter_results
      (DCF77Utils.new DecodeType.LogFile).get_next_minute_length).count false = 1 := by
  exact ⟨by decide,
    (c8_increase_second (DCF77Utils.new DecodeType.LogFile)).2.2.2.2 (by decide) (by decide)⟩

/-- Clearing jump flags does not change the minute-length computation. -/
theorem next_minute_length_of_clear_jumps (r : RadioDateTimeUtils) :
    next_minute_length_of r.clear_jumps = next_minute_length_of r := rfl

/-- Bumping the running-minutes counter does not change validity. -/
theorem is_valid_bump (r : RadioDateTimeUtils) :
    (r.bump_minutes_running).is_valid = r.is_valid := rfl

/-- A guarded reset to `false` yields `false` iff the flag was already
`false` or the guard holds. -/
theorem ite_false_iff (g : Prop) [Decidable g] (fm : Bool) :
    ((if g then false else fm) = false) ↔ (fm = false ∨ g) := by
  by_cases h : g <;> cases fm <;> simp [h]

/-- Claim C2 counterexample: with the frame-complete test failing,
`decode_time` does not leave the external aggregate unchanged: past the
first minute it still clears the jump flags and advances the date/time by
one minute (`src/lib.rs` lines 294-299 run before the completeness test). -/
theorem c2_aggregate_counterexample :
    1 + cx2.second ≠ cx2.get_next_minute_length ∧
    cx2.decode_type = DecodeType.LogFile ∧
    cx2.radio_datetime.minute = some 30 ∧
    (cx2.decode_time false).radio_datetime.minute = some 31 ∧
    (cx2.decode_time false).radio_datetime ≠ cx2.radio_datetime := by
  decide

/-- Claim C2 (amended): when the frame-complete test fails (the
mode-selected second value plus one differs from the minute length; in
offline/log mode the mode-selected value is the current `second`),
`decode_time` leaves every decoder output field, the second counters, the
buffer and `first_minute` unchanged and performs no setter call, but it
still clears the aggregate's jump flags and, past the first minute,
advances the aggregate by one minute. -/
theorem c2_incomplete_frame (s : DCF77Utils) (strict : Bool)
    (h : 1 + (match s.decode_type with
              | DecodeType.Live => s.old_second
              | DecodeType.LogFile => s.second) ≠ s.get_next_minute_length) :
    (s.decode_time_aux strict).1.parity_1 = s.parity_1 ∧
    (s.decode_time_aux strict).1.parity_2 = s.parity_2 ∧
    (s.decode_time_aux strict).1.parity_3 = s.parity_3 ∧
    (s.decode_time_aux strict).1.bit_0 = s.bit_0 ∧
    (s.decode_time_aux strict).1.third_party = s.third_party ∧
    (s.decode_time_aux strict).1.call_bit = s.call_bit ∧
    (s.decode_time_aux strict).1.bit_20 = s.bit_20 ∧
    (s.decode_time_aux strict).1.leap_second_is_one = s.leap_second_is_one ∧
    (s.decode_time_aux strict).1.first_minute = s.first_minute ∧
    (s.decode_time_aux strict).1.second = s.second ∧
    (s.decode_time_aux strict).1.old_second = s.old_second ∧
    (s.decode_time_aux strict).1.bit_buffer = s.bit_buffer ∧
    (s.decode_time_aux strict).2 = [] ∧
    (s.decode_time_aux strict).1.radio_datetime =
      (if s.first_minute then s.radio_datetime.clear_jumps
       else (s.radio_datetime.clear_jumps.add_minute).1) := by
  have hcond : ¬ (1 + (match s.decode_type with
      | DecodeType.Live => s.old_second
      | DecodeType.LogFile => s.second) =
      next_minute_length_of s.radio_datetime.clear_jumps) := by
    rw [next_minute_length_of_clear_jumps]
    exact h
  unfold DCF77Utils.decode_time_aux
  rw [if_neg hcond]
  refine ⟨rfl, rfl, rfl, rfl, rfl, rfl, rfl, rfl, rfl, rfl, rfl, rfl, rfl, ?_⟩
  by_cases hf : s.first_minute <;> simp [hf]

/-- Witness for `c2_incomplete_frame` at the concrete state `cx2`. -/
theorem c2_incomplete_frame_witness :
    (1 + (match cx2.decode_type with
          | DecodeType.Live => cx2.old_second
          | DecodeType.LogFile => cx2.second) ≠ cx2.get_next_minute_length) ∧
    (cx2.decode_time_aux false).1.parity_1 = cx2.parity_1 ∧
    (cx2.decode_time_aux false).2 = [] := by
  refine ⟨by decide, ?_, ?_⟩
  · exact (c2_incomplete_frame cx2 false (by decide)).1
  · exact (c2_incomplete_frame cx2 false (by decide)).2.2.2.2.2.2.2.2.2.2.2.2.1

/-- Claim C3 counterexample: in strict mode, a complete frame with bit 0
Zero and bit 20 One over an aggregate reporting valid does not clear
`first_minute` when the combined strict flag fails (here: DST bits 17 and
18 equal, so DST is undetermined), refuting the claimed "exactly when". -/
theorem c3_first_minute_counterexample :
    1 + cx3.second = cx3.get_next_minute_length ∧
    cx3.decode_type = DecodeType.LogFile ∧
    cx3.first_minute = true ∧
    (cx3.decode_time true).bit_0 = some false ∧
    (cx3.decode_time true).bit_20 = some true ∧
    (cx3.decode_time true).radio_datetime.is_valid = true ∧
    (cx3.decode_time true).first_minute = true := by
  decide

/-- Claim C3 (amended): on a complete frame `first_minute` becomes `false`
exactly when the mode's validity gate passes (non-strict: bit 0 Zero and
bit 20 One; strict: the combined `strict_ok`, which additionally requires
the three parities and a determined DST) and the aggregate reports the
date/time valid; and no decoder operation ever sets `first_minute` back to
`true`. -/
theorem c3_first_minute (s : DCF77Utils) (strict : Bool)
    (h : 1 + (match s.decode_type with
              | DecodeType.Live => s.old_second
              | DecodeType.LogFile => s.second) = s.get_next_minute_length) :
    ((s.decode_time strict).first_minute = false ↔
      (s.first_minute = false ∨
        ((if strict then strict_ok s.bit_buffer = true
          else s.bit_buffer.getD 0 none = some false ∧
               s.bit_buffer.getD 20 none = some true) ∧
         (s.decode_time strict).radio_datetime.is_valid = true))) ∧
    (∀ e t, (s.handle_new_edge e t).first_minute = s.first_minute) ∧
    (s.increase_second).1.first_minute = s.first_minute := by
  have hcond : 1 + (match s.decode_type with
      | DecodeType.Live => s.old_second
      | DecodeType.LogFile => s.second) =
      next_minute_length_of s.radio_datetime.clear_jumps := by
    rw [next_minute_length_of_clear_jumps]
    exact h
  refine ⟨?_, ?_, rfl⟩
  · unfold DCF77Utils.decode_time DCF77Utils.decode_time_aux
    rw [if_pos hcond]
    simp only [is_valid_bump]
    exact ite_false_iff _ _
  · intro e t
    unfold DCF77Utils.handle_new_edge
    by_cases hb : s.before_first_edge
    · simp [hb]
    · by_cases hs : time_diff s.t0 t < s.spike_limit
      · simp [hb, hs]
      · by_cases hl : e <;> by_cases hp : time_diff s.t0 t < PASSIVE_RUNAWAY <;>
          simp [hb, hs, hl, hp]

/-- Witness for `c3_first_minute`: decoding the complete good test frame in
non-strict mode clears `first_minute`. -/
theorem c3_first_minute_witness :
    (1 + (match wframe.decode_type with
          | DecodeType.Live => wframe.old_second
          | DecodeType.LogFile => wframe.second) = wframe.get_next_minute_length) ∧
    ((wframe.decode_time false).first_minute = false ↔
      (wframe.first_minute = false ∨
        ((if false then strict_ok wframe.bit_buffer = true
          else wframe.bit_buffer.getD 0 none = some false ∧
               wframe.bit_buffer.getD 20 none = some true) ∧
         (wframe.decode_time false).radio_datetime.is_valid = true))) ∧
    (wframe.decode_time false).first_minute = false := by
  have hiff := (c3_first_minute wframe false (by decide)).1
  refine ⟨by decide, hiff, ?_⟩
  exact hiff.mpr (Or.inr ⟨by decide, by decide⟩)

/-- Claim C4: on a complete frame, with `strict_checks` the one combined
`strict_ok` flag (all three parities ok, bit 0 Zero, bit 20 One, DST
determined) is the validity argument of every minute/hour/weekday/month/
year/day setter; without it each setter receives its own group's parity
result (minute: parity 1, hour: parity 2, all date sub-fields: parity 3);
the DST and leap-second values are forwarded ungated in either mode. -/
theorem c4_validity_gating (s : DCF77Utils) (strict : Bool)
    (h : 1 + (match s.decode_type with
              | DecodeType.Live => s.old_second
              | DecodeType.LogFile => s.second) = s.get_next_minute_length) :
    ((s.decode_time_aux strict).2 =
      (let buf := s.bit_buffer
       let cj := (if s.first_minute then false
                  else (s.radio_datetime.clear_jumps.add_minute).2) && !s.first_minute
       let vMinute := if strict then strict_ok buf
                      else decide (get_parity buf 21 27 (buf.getD 28 none) = some false)
       let vHour := if strict then strict_ok buf
                    else decide (get_parity buf 29 34 (buf.getD 35 none) = some false)
       let vDate := if strict then strict_ok buf
                    else decide (get_parity buf 36 57 (buf.getD 58 none) = some false)
       [SetterCall.minute (get_bcd_value buf 21 27) vMinute cj,
        SetterCall.hour (get_bcd_value buf 29 34) vHour cj,
        SetterCall.weekday (get_bcd_value buf 42 44) vDate cj,
        SetterCall.month (get_bcd_value buf 45 49) vDate cj,
        SetterCall.year (get_bcd_value buf 50 57) vDate cj,
        SetterCall.day (get_bcd_value buf 36 41) vDate cj,
        SetterCall.dst (dst_value buf) (buf.getD 16 none) cj,
        SetterCall.leapSecond (buf.getD 19 none) s.get_next_minute_length])) ∧
    (strict_ok s.bit_buffer = true ↔
      (get_parity s.bit_buffer 21 27 (s.bit_buffer.getD 28 none) = some false ∧
       get_parity s.bit_buffer 29 34 (s.bit_buffer.getD 35 none) = some false ∧
       get_parity s.bit_buffer 36 57 (s.bit_buffer.getD 58 none) = some false ∧
       s.bit_buffer.getD 0 none = some false ∧
       s.bit_buffer.getD 20 none = some true ∧
       (dst_value s.bit_buffer).isSome = true)) ∧
    ((s.decode_time_aux true).2.drop 6 = (s.decode_time_aux false).2.drop 6) := by
  have hcond : 1 + (match s.decode_type with
      | DecodeType.Live => s.old_second
      | DecodeType.LogFile => s.second) =
      next_minute_length_of s.radio_datetime.clear_jumps := by
    rw [next_minute_length_of_clear_jumps]
    exact h
  refine ⟨?_, ?_, ?_⟩
  · unfold DCF77Utils.decode_time_aux
    rw [if_pos hcond]
    by_cases hf : s.first_minute <;>
      simp [hf, DCF77Utils.get_next_minute_length, next_minute_length_of_clear_jumps]
  · simp [strict_ok]
  · unfold DCF77Utils.decode_time_aux
    rw [if_pos hcond, if_pos hcond]
    by_cases hf : s.first_minute <;> simp [hf]

/-- Witness for `c4_validity_gating`: the strict trace of the good test
frame, with all six date/time setters receiving the combined flag (here
`true`) and the raw DST and leap-second forwards. -/
theorem c4_validity_gating_witness :
    (1 + (match wframe.decode_type with
          | DecodeType.Live => wframe.old_second
          | DecodeType.LogFile => wframe.second) = wframe.get_next_minute_length) ∧
    (wframe.decode_time_aux true).2 =
      [SetterCall.minute (some 58) true false,
       SetterCall.hour (some 16) true false,
       SetterCall.weekday (some 6) true false,
       SetterCall.month (some 10) true false,
       SetterCall.year (some 22) true false,
       SetterCall.day (some 22) true false,
       SetterCall.dst (some true) (some false) false,
       SetterCall.leapSecond (some false) 60] := by
  refine ⟨by decide, ?_⟩
  have h1 := (c4_validity_gating wframe true (by decide)).1
  rw [h1]
  decide

/-- The `get_binary_value` loop returns `none` exactly when one of the `n`
slots read from index `i` is undetermined. -/
theorem bin_core_eq_none_iff (buf : List (Option Bool)) :
    ∀ (n i val mult : Nat),
      (bin_core buf i n val mult = none ↔
        ∃ j, j < n ∧ buf.getD (i + j) none = none) := by
  intro n
  induction n with
  | zero =>
    intro i val mult
    simp [bin_core]
  | succ k ih =>
    intro i val mult
    cases hb : buf.getD i none with
    | none =>
      have hstep : bin_core buf i (k + 1) val mult = none := by
        simp only [bin_core]
        rw [hb]
      rw [hstep]
      refine ⟨fun _ => ⟨0, by omega, by simpa using hb⟩, fun _ => rfl⟩
    | some b =>
      have hstep : bin_core buf i (k + 1) val mult =
          bin_core buf (i + 1) k ((val + mult * (if b then 1 else 0)) % 65536)
            ((mult * 2) % 65536) := by
        simp only [bin_core]
        rw [hb]
      rw [hstep, ih]
      constructor
      · rintro ⟨j, hj, hg⟩
        refine ⟨j + 1, by omega, ?_⟩
        rw [show i + (j + 1) = i + 1 + j by omega]
        exact hg
      · rintro ⟨j, hj, hg⟩
        cases j with
        | zero =>
          rw [Nat.add_zero] at hg
          rw [hb] at hg
          exact absurd hg (by simp)
        | succ m =>
          refine ⟨m, by omega, ?_⟩
          rw [show i + 1 + m = i + (m + 1) by omega]
          exact hg

/-- When every slot is determined and the 16-bit accumulators cannot wrap,
the `get_binary_value` loop computes the least-significant-bit-first binary
value. -/
theorem bin_core_eq_some (buf : List (Option Bool)) :
    ∀ (n i val mult : Nat),
      (∀ j, j < n → buf.getD (i + j) none ≠ none) →
      val < mult → mult * 2 ^ n ≤ 65536 →
      bin_core buf i n val mult =
        some (val + mult * ∑ j in Finset.range n,
          (if buf.getD (i + j) none = some true then 2 ^ j else 0)) := by
  intro n
  induction n with
  | zero =>
    intro i val mult h1 h2 h3
    simp [bin_core]
  | succ k ih =>
    intro i val mult hall hvm hle
    obtain ⟨b, hb⟩ : ∃ b, buf.getD i none = some b := by
      cases hg : buf.getD i none with
      | none =>
        have h0 := hall 0 (by omega)
        rw [Nat.add_zero] at h0
        exact absurd hg h0
      | some b => exact ⟨b, rfl⟩
    have hstep : bin_core buf i (k + 1) val mult =
        bin_core buf (i + 1) k ((val + mult * (if b then 1 else 0)) % 65536)
          ((mult * 2) % 65536) := by
      simp only [bin_core]
      rw [hb]
    have hbv : (if b then (1 : Nat) else 0) ≤ 1 := by cases b <;> simp
    have h2le : (2 : Nat) ≤ 2 ^ (k + 1) := by
      calc (2 : Nat) = 2 ^ 1 := by norm_num
      _ ≤ 2 ^ (k + 1) := Nat.pow_le_pow_right (by norm_num) (by omega)
    have h2mult : mult * 2 ≤ 65536 :=
      le_trans (Nat.mul_le_mul_left mult h2le) hle
    have hval2 : val + mult * (if b then (1 : Nat) else 0) < mult * 2 := by
      have := Nat.mul_le_mul_left mult hbv
      omega
    have hmodv : (val + mult * (if b then (1 : Nat) else 0)) % 65536 =
        val + mult * (if b then (1 : Nat) else 0) :=
      Nat.mod_eq_of_lt (by omega)
    cases k with
    | zero =>
      rw [hstep, hmodv]
      have hz : bin_core buf (i + 1) 0 (val + mult * (if b then 1 else 0))
          ((mult * 2) % 65536) = some (val + mult * (if b then 1 else 0)) := rfl
      rw [hz]
      congr 1
      rw [Finset.sum_range_one, Nat.add_zero, hb]
      cases b <;> simp
    | succ m =>
      have h4le : (4 : Nat) ≤ 2 ^ (m + 1 + 1) := by
        calc (4 : Nat) = 2 ^ 2 := by norm_num
        _ ≤ 2 ^ (m + 1 + 1) := Nat.pow_le_pow_right (by norm_num) (by omega)
      have h2mlt : mult * 2 < 65536 := by
        have h5 := Nat.mul_le_mul_left mult h4le
        have h4 : mult * 4 ≤ 65536 := le_trans h5 hle
        omega
      have hmodm : (mult * 2) % 65536 = mult * 2 := Nat.mod_eq_of_lt h2mlt
      have hall2 : ∀ j, j < m + 1 → buf.getD (i + 1 + j) none ≠ none := by
        intro j hj
        have h6 := hall (j + 1) (by omega)
        rwa [show i + (j + 1) = i + 1 + j by omega] at h6
      have hle2 : (mult * 2) * 2 ^ (m + 1) ≤ 65536 := by
        have h7 : (mult * 2) * 2 ^ (m + 1) = mult * 2 ^ (m + 1 + 1) := by ring
        rw [h7]
        exact hle
      rw [hstep, hmodv, hmodm,
        ih (i + 1) (val + mult * (if b then 1 else 0)) (mult * 2) hall2 hval2 hle2]
      congr 1
      conv_rhs => rw [Finset.sum_range_succ']
      have hsum : ∑ j in Finset.range (m + 1),
          (if buf.getD (i + (j + 1)) none = some true then 2 ^ (j + 1) else 0) =
          2 * ∑ j in Finset.range (m + 1),
            (if buf.getD (i + 1 + j) none = some true then 2 ^ j else 0) := by
        rw [Finset.mul_sum]
        refine Finset.sum_congr rfl ?_
        intro j hj
        rw [show i + (j + 1) = i + 1 + j by omega]
        by_cases hc : buf.getD (i + 1 + j) none = some true
        · rw [if_pos hc, if_pos hc]
          ring
        · rw [if_neg hc, if_neg hc]
          omega
      rw [hsum]
      have hf0 : (if buf.getD (i + 0) none = some true then 2 ^ 0 else 0) =
          (if b then (1 : Nat) else 0) := by
        rw [Nat.add_zero, hb]
        cases b <;> simp
      rw [hf0]
      ring

/-- Claim C10: for `start <= stop`, `stop` within the buffer and a range of
at most 15 bits, `get_binary_value` returns `None` iff some slot in
`[start, stop]` is undetermined, and otherwise the
least-significant-bit-first value of the range; and the bound
`stop < buffer length` is a genuine precondition: violating it trips the
out-of-bounds slice access (the outer `none`). -/
theorem c10_get_binary_value :
    (∀ (buf : List (Option Bool)) (start stop : Nat),
      start ≤ stop → stop < buf.length → stop - start < 15 →
      ((get_binary_value buf start stop = some none ↔
         ∃ j, j ≤ stop - start ∧ buf.getD (start + j) none = none) ∧
       ((∀ j, j ≤ stop - start → buf.getD (start + j) none ≠ none) →
         get_binary_value buf start stop =
           some (some (∑ j in Finset.range (stop + 1 - start),
             if buf.getD (start + j) none = some true then 2 ^ j else 0))))) ∧
    get_binary_value [some false] 0 1 = none := by
  constructor
  · intro buf start stop h1 h2 h3
    have hin : start ≤ stop + 1 ∧ stop + 1 ≤ buf.length := ⟨by omega, by omega⟩
    constructor
    · unfold get_binary_value
      rw [if_pos hin]
      rw [Option.some_inj]
      rw [bin_core_eq_none_iff]
      constructor
      · rintro ⟨j, hj, hg⟩
        exact ⟨j, by omega, hg⟩
      · rintro ⟨j, hj, hg⟩
        exact ⟨j, by omega, hg⟩
    · intro hall
      unfold get_binary_value
      rw [if_pos hin]
      have hle : 1 * 2 ^ (stop + 1 - start) ≤ 65536 := by
        have hb15 : stop + 1 - start ≤ 15 := by omega
        calc 1 * 2 ^ (stop + 1 - start) = 2 ^ (stop + 1 - start) := by ring
        _ ≤ 2 ^ 15 := Nat.pow_le_pow_right (by norm_num) hb15
        _ ≤ 65536 := by norm_num
      rw [bin_core_eq_some buf (stop + 1 - start) start 0 1
        (fun j hj => hall j (by omega)) (by omega) hle]
      simp
  · decide

/-- Witness for `c10_get_binary_value`: the three-bit buffer 1,0,1 decodes
to 5, and a buffer with an undetermined slot decodes to `None`. -/
theorem c10_get_binary_value_witness :
    ((0 : Nat) ≤ 2 ∧
     2 < ([some true, some false, some true] : List (Option Bool)).length ∧
     2 - 0 < 15) ∧
    get_binary_value [some true, some false, some true] 0 2 =
      some (some (∑ j in Finset.range (2 + 1 - 0),
        if ([some true, some false, some true] : List (Option Bool)).getD (0 + j) none
            = some true then 2 ^ j else 0)) ∧
    (get_binary_value [some true, none, some true] 0 2 = some none ↔
      ∃ j, j ≤ 2 - 0 ∧
        ([some true, none, some true] : List (Option Bool)).getD (0 + j) none = none) := by
  refine ⟨by decide, ?_, ?_⟩
  · exact (c10_get_binary_value.1 [some true, some false, some true] 0 2
      (by decide) (by decide) (by decide)).2 (by decide)
  · exact (c10_get_binary_value.1 [some true, none, some true] 0 2
      (by decide) (by decide) (by decide)).1

end DCF77
